import Mathlib

/-!
A shallow embedding of the pyrepeater repeater controller
(src/pyrepeater: controller.py, repeater.py, recorder.py, settings.py),
together with proofs of the behavioural properties stated in its
specification.

Modelling conventions:
* Timestamps are integers (seconds).  Python's
  `timedelta.total_seconds(datetime.now() - t)` becomes `now - t` over `Int`.
  Within one loop iteration every call of `datetime.now()` is modelled by
  the same tick time `now`.
* The controller stores its mutable fields on a single flattened record
  `ControllerStatus` (the source scatters them over `ControllerStatus`,
  its nested `RepeaterStatus`/`SleepStatus` dataclasses and dynamically
  assigned attributes such as `status.busy`, `status.sleep_wait_start` and
  `status.last_rcvd_dt`).
* The source reads the settings fields `active_after_sec` and
  `id_when_sleep`; the settings class declares them as `wake_after_sec`
  and `id_when_asleep`, which are the names used here.
* Hardware, subprocess and logging side effects are recorded as an event
  trace (`Event`).  `Repeater.serial_enable_tx` / `serial_disable_tx`
  catch every exception internally and return normally; a failure is an
  input flag that replaces the corresponding events with an error event.
* `repeater.is_busy()` is modelled as the busy sample of the tick.
-/

/-- Settings of the controller, from `settings.py` (`ControllerSettings`).
Intervals are minutes/seconds as in the source. -/
structure ControllerSettings where
  id_mins : Int
  rpt_info_mins : Int
  id_when_asleep : Bool
  rpt_info_when_asleep : Bool
  sleep_after_mins : Int
  wake_after_sec : Int
  min_rec_secs : Int
deriving Repr, DecidableEq

/-- The mutable controller status, flattening `ControllerStatus`,
`RepeaterStatus`, `SleepStatus` and the dynamically assigned attributes
of `controller.py`. -/
structure ControllerStatus where
  busy : Bool
  sleep : Bool
  sleep_start_dt : Int
  sleep_wait_start : Int
  last_id : Int
  last_announcement : Int
  last_rcvd_dt : Int
  pending_messages : List String
deriving Repr, DecidableEq

/-- `Controller.sleep_timer` (controller.py 223-234): enter sleep when the
last reception is at least `sleep_after_mins * 60` seconds old. -/
def sleep_timer (s : ControllerSettings) (now : Int) (st : ControllerStatus) :
    ControllerStatus :=
  if ¬ st.sleep ∧ now - st.last_rcvd_dt ≥ s.sleep_after_mins * 60 then
    { st with sleep := true, sleep_start_dt := now }
  else
    st

/-- `Controller.repeaterinfo_timer` (controller.py 236-251): when the last
announcement is strictly older than `rpt_info_mins * 60` seconds, append the
info clip and the ID clip and advance both watermarks.  The source contains
no sleep check here. -/
def repeaterinfo_timer (s : ControllerSettings) (now : Int)
    (st : ControllerStatus) : ControllerStatus :=
  if now - st.last_announcement ≤ s.rpt_info_mins * 60 then
    st
  else
    { st with
      pending_messages :=
        st.pending_messages ++ ["sounds/repeater_info.wav", "sounds/cw_id.wav"]
      last_announcement := now
      last_id := now }

/-- `Controller.cwid_timer` (controller.py 253-268): when the last ID is
strictly older than `id_mins * 60` seconds and the repeater is awake (or
IDs are allowed while asleep), append the ID clip and advance `last_id`. -/
def cwid_timer (s : ControllerSettings) (now : Int) (st : ControllerStatus) :
    ControllerStatus :=
  if now - st.last_id ≤ s.id_mins * 60 then
    st
  else if ¬ st.sleep ∨ s.id_when_asleep then
    { st with
      pending_messages := st.pending_messages ++ ["sounds/cw_id.wav"]
      last_id := now }
  else
    st

/-- `Controller.check_for_timed_events` (controller.py 270-274): run the
sleep timer, then the repeater-info timer, then the CW-ID timer. -/
def check_for_timed_events (s : ControllerSettings) (now : Int)
    (st : ControllerStatus) : ControllerStatus :=
  cwid_timer s now (repeaterinfo_timer s now (sleep_timer s now st))

/-- Observable side effects of one loop iteration: serial-line writes,
delays, audio playback, queue clearing and recording management. -/
inductive Event where
  | enableTX : Event
  | waitPreTX : Event
  | keyError : Event
  | play : String → Event
  | clearQueue : Event
  | disableTX : Event
  | waitPostTX : Event
  | unkeyError : Event
  | startRec : String → Event
  | termRec : Event
  | deleteFile : String → Event
deriving Repr, DecidableEq

/-- `Repeater.serial_enable_tx` (repeater.py 68-79): set DTR/RTS for
transmit, then sleep `pre_tx_delay`.  Any exception is caught, logged and
swallowed, so the caller always continues; `fails` selects that branch. -/
def serial_enable_tx (fails : Bool) : List Event :=
  if fails then [Event.keyError] else [Event.enableTX, Event.waitPreTX]

/-- `Repeater.serial_disable_tx` (repeater.py 81-92): clear DTR/RTS, then
sleep `post_tx_delay`.  Exceptions are caught and swallowed as above. -/
def serial_disable_tx (fails : Bool) : List Event :=
  if fails then [Event.unkeyError] else [Event.disableTX, Event.waitPostTX]

/-- `Controller.play_pending_messages` (controller.py 149-163): play every
wav file in order (`subprocess.run` with `check=False`, so playback errors
never raise), then clear the queue.  Returns the trace and the new queue. -/
def play_pending_messages (wav_files : List String) :
    List Event × List String :=
  (wav_files.map Event.play ++ [Event.clearQueue], [])

/-- A live recording, from the `Recorder` dataclass of controller.py /
`Recording` of recorder.py: process handle elided, start time and file
name kept. -/
structure Recording where
  start_time : Int
  file_name : String
deriving Repr, DecidableEq

/-- Recording file name `recordings/{timestamp}.wav` (controller.py
165-177), with the tick time standing in for the formatted timestamp. -/
def recording_name (now : Int) : String :=
  "recordings/" ++ toString now ++ ".wav"

namespace Controller

/-- `Controller.stop_recording` (controller.py 179-202): do nothing without
a live recording; otherwise terminate the process and, when the recording
lasted strictly less than `min_rec_secs`, delete the file.  The recorder
slot always ends empty. -/
def stop_recording (s : ControllerSettings) (now : Int)
    (recorder : Option Recording) : Option Recording × List Event :=
  match recorder with
  | none => (none, [])
  | some r =>
    let recording_time := now - r.start_time
    if recording_time < s.min_rec_secs then
      (none, [Event.termRec, Event.deleteFile r.file_name])
    else
      (none, [Event.termRec])

end Controller

/-- The full mutable state of one `Controller.start_controller` run: the
status record, the recorder slot and the loop-local `_wait_before_active`
flag. -/
structure CState where
  status : ControllerStatus
  recorder : Option Recording
  wait_before_active : Bool
deriving Repr, DecidableEq

/-- One tick's inputs: the tick time, the sampled busy signal, and whether
the serial enable/disable calls raise (and get their exception swallowed). -/
structure Input where
  now : Int
  busy : Bool
  key_fails : Bool
  unkey_fails : Bool
deriving Repr, DecidableEq

/-- `Controller.when_repeater_is_free` (controller.py 204-212): stop any
recording; when the pending queue is non-empty, enable TX, play the queue,
disable TX. -/
def when_repeater_is_free (s : ControllerSettings) (now : Int)
    (key_fails unkey_fails : Bool) (st : CState) : CState × List Event :=
  let stopped := Controller.stop_recording s now st.recorder
  if st.status.pending_messages.isEmpty then
    ({ st with recorder := stopped.1 }, stopped.2)
  else
    let enableEv := serial_enable_tx key_fails
    let played := play_pending_messages st.status.pending_messages
    let disableEv := serial_disable_tx unkey_fails
    ({ st with
        recorder := stopped.1
        status := { st.status with pending_messages := played.2 } },
      stopped.2 ++ enableEv ++ played.1 ++ disableEv)

/-- `Controller.when_repeater_is_busy` (controller.py 214-221): start a
recording when none is live, and set `last_rcvd_dt` to the current time
(on every busy tick). -/
def when_repeater_is_busy (now : Int) (st : CState) : CState × List Event :=
  let started :=
    match st.recorder with
    | none =>
      ((some { start_time := now, file_name := recording_name now } :
          Option Recording),
        [Event.startRec (recording_name now)])
    | some r => ((some r : Option Recording), ([] : List Event))
  ({ st with
      recorder := started.1
      status := { st.status with last_rcvd_dt := now } },
    started.2)

/-- The free branch of the loop body (controller.py 82-103): clear the
busy flag when set, end a pending sleep wait, then
`when_repeater_is_free`. -/
def tick_free (s : ControllerSettings) (st : CState) (inp : Input) :
    CState × List Event :=
  let status1 := check_for_timed_events s inp.now st.status
  let status2 := if status1.busy then { status1 with busy := false }
    else status1
  let wait1 := if st.wait_before_active then false
    else st.wait_before_active
  when_repeater_is_free s inp.now inp.key_fails inp.unkey_fails
    { status := status2, recorder := st.recorder,
      wait_before_active := wait1 }

/-- The sleep-wait block of the busy branch (controller.py 114-145):
when sleeping and no wait is running, start one at `now`; then, when a
wait has lasted at least `wake_after_sec` seconds, end the sleep state
and the wait. -/
def busy_sleep_wait (s : ControllerSettings) (now : Int)
    (status2 : ControllerStatus) (wait : Bool) : ControllerStatus × Bool :=
  let start_wait := status2.sleep ∧ ¬ wait
  let status3 := if start_wait then
      { status2 with sleep_wait_start := now }
    else status2
  let wait1 := if start_wait then true else wait
  let wake := wait1 ∧ now - status3.sleep_wait_start ≥ s.wake_after_sec
  let status4 := if wake then { status3 with sleep := false } else status3
  let wait2 := if wake then false else wait1
  (status4, wait2)

/-- The busy branch of the loop body (controller.py 105-147): set the
busy flag when clear, run the sleep-wait block, then
`when_repeater_is_busy`. -/
def tick_busy (s : ControllerSettings) (st : CState) (inp : Input) :
    CState × List Event :=
  let status1 := check_for_timed_events s inp.now st.status
  let status2 := if ¬ status1.busy then { status1 with busy := true }
    else status1
  let sw := busy_sleep_wait s inp.now status2 st.wait_before_active
  when_repeater_is_busy inp.now
    { status := sw.1, recorder := st.recorder,
      wait_before_active := sw.2 }

/-- One iteration of the `while True` loop of
`Controller.start_controller` (controller.py 78-147): run the timed
events, then the free or the busy branch according to the sampled busy
signal. -/
def tick (s : ControllerSettings) (st : CState) (inp : Input) :
    CState × List Event :=
  if ¬ inp.busy then tick_free s st inp else tick_busy s st inp

/-- `Controller.__init__` (controller.py 54-68): busy and sleep flags
cleared, every watermark set to construction time, the pending queue
pre-seeded with the repeater-info clip followed by the ID clip, no
recorder. -/
def init_controller (now : Int) : CState :=
  { status :=
      { busy := false
        sleep := false
        sleep_start_dt := now
        sleep_wait_start := now
        last_id := now
        last_announcement := now
        last_rcvd_dt := now
        pending_messages :=
          ["sounds/repeater_info.wav", "sounds/cw_id.wav"] }
    recorder := none
    wait_before_active := false }

/-- Run the controller loop over a list of tick inputs, recording each
tick's input together with its event trace. -/
def run_controller (s : ControllerSettings) :
    CState → List Input → List (Input × List Event)
  | _, [] => []
  | st, inp :: rest =>
    let stepped := tick s st inp
    (inp, stepped.2) :: run_controller s stepped.1 rest

/-- Run the controller loop over a list of tick inputs, returning the
final state. -/
def run_state (s : ControllerSettings) : CState → List Input → CState
  | st, [] => st
  | st, inp :: rest => run_state s (tick s st inp).1 rest

namespace RecordingManager

/-- `RecordingManager.stop_recording` (recorder.py 56-85): same discard
policy as the controller's copy — terminate, delete the artifact exactly
when the duration is strictly below `min_rec_secs`, leave no live
recording. -/
def stop_recording (min_rec_secs now : Int)
    (recording : Option Recording) : Option Recording × List Event :=
  match recording with
  | none => (none, [])
  | some r =>
    let recording_time := now - r.start_time
    if recording_time < min_rec_secs then
      (none, [Event.termRec, Event.deleteFile r.file_name])
    else
      (none, [Event.termRec])

end RecordingManager

/-- The drain order as §4.5 of the specification words it: key, wait the
pre-TX delay, play each clip in order, wait the post-TX delay, unkey,
clear the queue.  Stated only to compare with the trace the source
produces. -/
def drain_events_spec (queue : List String) : List Event :=
  [Event.enableTX, Event.waitPreTX] ++ queue.map Event.play
    ++ [Event.waitPostTX, Event.disableTX, Event.clearQueue]

/-- Example settings matching the defaults of `ControllerSettings`. -/
def s_example : ControllerSettings :=
  { id_mins := 15, rpt_info_mins := 60, id_when_asleep := false,
    rpt_info_when_asleep := false, sleep_after_mins := 10,
    wake_after_sec := 2, min_rec_secs := 2 }

/-- A sleeping status with every watermark at 0 and an empty queue,
used for concrete evaluations. -/
def st_sleeping_due : ControllerStatus :=
  { busy := false, sleep := true, sleep_start_dt := 0, sleep_wait_start := 0,
    last_id := 0, last_announcement := 0, last_rcvd_dt := 0,
    pending_messages := [] }

example :
    (repeaterinfo_timer s_example 3601
      { st_sleeping_due with sleep := false }).pending_messages
    = ["sounds/repeater_info.wav", "sounds/cw_id.wav"] := by decide

theorem sleep_timer_pending (s : ControllerSettings) (now : Int)
    (st : ControllerStatus) :
    (sleep_timer s now st).pending_messages = st.pending_messages := by
  unfold sleep_timer; split <;> rfl

theorem sleep_timer_sws (s : ControllerSettings) (now : Int)
    (st : ControllerStatus) :
    (sleep_timer s now st).sleep_wait_start = st.sleep_wait_start := by
  unfold sleep_timer; split <;> rfl

theorem sleep_timer_lr (s : ControllerSettings) (now : Int)
    (st : ControllerStatus) :
    (sleep_timer s now st).last_rcvd_dt = st.last_rcvd_dt := by
  unfold sleep_timer; split <;> rfl

theorem sleep_timer_sleep_of (s : ControllerSettings) (now : Int)
    (st : ControllerStatus) (h : st.sleep = true) :
    (sleep_timer s now st).sleep = true := by
  unfold sleep_timer; split
  · rfl
  · exact h

theorem repeaterinfo_timer_sleep (s : ControllerSettings) (now : Int)
    (st : ControllerStatus) :
    (repeaterinfo_timer s now st).sleep = st.sleep := by
  unfold repeaterinfo_timer; split <;> rfl

theorem repeaterinfo_timer_sws (s : ControllerSettings) (now : Int)
    (st : ControllerStatus) :
    (repeaterinfo_timer s now st).sleep_wait_start = st.sleep_wait_start := by
  unfold repeaterinfo_timer; split <;> rfl

theorem repeaterinfo_timer_lr (s : ControllerSettings) (now : Int)
    (st : ControllerStatus) :
    (repeaterinfo_timer s now st).last_rcvd_dt = st.last_rcvd_dt := by
  unfold repeaterinfo_timer; split <;> rfl

theorem repeaterinfo_timer_pending (s : ControllerSettings) (now : Int)
    (st : ControllerStatus) :
    ∃ t, (repeaterinfo_timer s now st).pending_messages =
      st.pending_messages ++ t := by
  unfold repeaterinfo_timer; split
  · exact ⟨[], (List.append_nil _).symm⟩
  · exact ⟨_, rfl⟩

theorem cwid_timer_sleep (s : ControllerSettings) (now : Int)
    (st : ControllerStatus) :
    (cwid_timer s now st).sleep = st.sleep := by
  unfold cwid_timer; split
  · rfl
  · split <;> rfl

theorem cwid_timer_sws (s : ControllerSettings) (now : Int)
    (st : ControllerStatus) :
    (cwid_timer s now st).sleep_wait_start = st.sleep_wait_start := by
  unfold cwid_timer; split
  · rfl
  · split <;> rfl

theorem cwid_timer_lr (s : ControllerSettings) (now : Int)
    (st : ControllerStatus) :
    (cwid_timer s now st).last_rcvd_dt = st.last_rcvd_dt := by
  unfold cwid_timer; split
  · rfl
  · split <;> rfl

theorem cwid_timer_pending (s : ControllerSettings) (now : Int)
    (st : ControllerStatus) :
    ∃ t, (cwid_timer s now st).pending_messages =
      st.pending_messages ++ t := by
  unfold cwid_timer; split
  · exact ⟨[], (List.append_nil _).symm⟩
  · split
    · exact ⟨_, rfl⟩
    · exact ⟨[], (List.append_nil _).symm⟩

theorem check_sleep_of (s : ControllerSettings) (now : Int)
    (st : ControllerStatus) (h : st.sleep = true) :
    (check_for_timed_events s now st).sleep = true := by
  unfold check_for_timed_events
  rw [cwid_timer_sleep, repeaterinfo_timer_sleep]
  exact sleep_timer_sleep_of s now st h

theorem check_sws (s : ControllerSettings) (now : Int)
    (st : ControllerStatus) :
    (check_for_timed_events s now st).sleep_wait_start =
      st.sleep_wait_start := by
  unfold check_for_timed_events
  rw [cwid_timer_sws, repeaterinfo_timer_sws, sleep_timer_sws]

theorem check_lr (s : ControllerSettings) (now : Int)
    (st : ControllerStatus) :
    (check_for_timed_events s now st).last_rcvd_dt = st.last_rcvd_dt := by
  unfold check_for_timed_events
  rw [cwid_timer_lr, repeaterinfo_timer_lr, sleep_timer_lr]

theorem check_pending (s : ControllerSettings) (now : Int)
    (st : ControllerStatus) :
    ∃ t, (check_for_timed_events s now st).pending_messages =
      st.pending_messages ++ t := by
  unfold check_for_timed_events
  obtain ⟨t1, h1⟩ :=
    repeaterinfo_timer_pending s now (sleep_timer s now st)
  obtain ⟨t2, h2⟩ :=
    cwid_timer_pending s now (repeaterinfo_timer s now (sleep_timer s now st))
  refine ⟨t1 ++ t2, ?_⟩
  rw [h2, h1, sleep_timer_pending, List.append_assoc]

theorem stop_recording_no_clear (s : ControllerSettings) (now : Int)
    (recorder : Option Recording) :
    Event.clearQueue ∉ (Controller.stop_recording s now recorder).2 := by
  cases recorder with
  | none => simp [Controller.stop_recording]
  | some r =>
    simp only [Controller.stop_recording]
    split <;> simp

theorem when_busy_no_clear (now : Int) (st : CState) :
    Event.clearQueue ∉ (when_repeater_is_busy now st).2 := by
  unfold when_repeater_is_busy
  cases hrec : st.recorder <;> simp [hrec]

theorem when_free_clear_nonempty (s : ControllerSettings) (now : Int)
    (kf uf : Bool) (st : CState) :
    Event.clearQueue ∈ (when_repeater_is_free s now kf uf st).2 →
    st.status.pending_messages ≠ [] := by
  unfold when_repeater_is_free
  intro h
  split at h
  · exact absurd h (stop_recording_no_clear s now st.recorder)
  · next hne =>
    intro hnil
    rw [hnil] at hne
    simp at hne

theorem when_free_clear_of_nonempty (s : ControllerSettings) (now : Int)
    (kf uf : Bool) (st : CState)
    (h : st.status.pending_messages ≠ []) :
    Event.clearQueue ∈ (when_repeater_is_free s now kf uf st).2 := by
  unfold when_repeater_is_free
  rw [if_neg (by simpa [List.isEmpty_iff] using h)]
  simp [play_pending_messages]

theorem when_free_sleep (s : ControllerSettings) (now : Int)
    (kf uf : Bool) (st : CState) :
    (when_repeater_is_free s now kf uf st).1.status.sleep =
      st.status.sleep := by
  unfold when_repeater_is_free
  split <;> rfl

theorem when_free_lr (s : ControllerSettings) (now : Int)
    (kf uf : Bool) (st : CState) :
    (when_repeater_is_free s now kf uf st).1.status.last_rcvd_dt =
      st.status.last_rcvd_dt := by
  unfold when_repeater_is_free
  split <;> rfl

theorem when_free_wait (s : ControllerSettings) (now : Int)
    (kf uf : Bool) (st : CState) :
    (when_repeater_is_free s now kf uf st).1.wait_before_active =
      st.wait_before_active := by
  unfold when_repeater_is_free
  split <;> rfl

theorem when_busy_sleep (now : Int) (st : CState) :
    (when_repeater_is_busy now st).1.status.sleep = st.status.sleep := rfl

theorem when_busy_lr (now : Int) (st : CState) :
    (when_repeater_is_busy now st).1.status.last_rcvd_dt = now := rfl

theorem busy_sleep_wait_wake (s : ControllerSettings) (now : Int)
    (st2 : ControllerStatus) (w : Bool)
    (hw : 0 < s.wake_after_sec) (hs : st2.sleep = true)
    (h : (busy_sleep_wait s now st2 w).1.sleep = false) :
    w = true ∧ now - st2.sleep_wait_start ≥ s.wake_after_sec := by
  unfold busy_sleep_wait at h
  dsimp only at h
  split at h
  · exfalso
    dsimp only at h
    split at h
    · next hwake =>
      obtain ⟨-, hwake2⟩ := hwake
      omega
    · dsimp only at h
      rw [hs] at h
      exact Bool.noConfusion h
  · split at h
    · next hwake => exact hwake
    · exfalso
      rw [hs] at h
      exact Bool.noConfusion h

theorem tick_busy_no_clear (s : ControllerSettings) (st : CState)
    (inp : Input) :
    Event.clearQueue ∉ (tick_busy s st inp).2 := by
  unfold tick_busy
  dsimp only
  exact when_busy_no_clear _ _

theorem tick_clear_implies_free (s : ControllerSettings) (st : CState)
    (inp : Input) (h : Event.clearQueue ∈ (tick s st inp).2) :
    inp.busy = false ∧
      (check_for_timed_events s inp.now st.status).pending_messages ≠ [] := by
  unfold tick at h
  by_cases hb : inp.busy
  · rw [if_neg (not_not_intro hb)] at h
    exact absurd h (tick_busy_no_clear s st inp)
  · rw [if_pos hb] at h
    refine ⟨by simpa using hb, ?_⟩
    unfold tick_free at h
    dsimp only at h
    have h2 := when_free_clear_nonempty _ _ _ _ _ h
    dsimp only at h2
    split at h2
    · exact h2
    · exact h2

theorem tick_free_sleep_preserved (s : ControllerSettings) (st : CState)
    (inp : Input) (h : st.status.sleep = true) :
    (tick_free s st inp).1.status.sleep = true := by
  unfold tick_free
  dsimp only
  rw [when_free_sleep]
  dsimp only
  split
  · exact check_sleep_of _ _ _ h
  · exact check_sleep_of _ _ _ h

theorem tick_free_wait_false (s : ControllerSettings) (st : CState)
    (inp : Input) :
    (tick_free s st inp).1.wait_before_active = false := by
  unfold tick_free
  dsimp only
  rw [when_free_wait]
  dsimp only
  split
  · rfl
  · next hw => simpa using hw

/-- A busy-flagged awake state with an old `last_rcvd_dt`, used for
concrete evaluations. -/
def st_busy_example : CState :=
  { status :=
      { busy := true, sleep := false, sleep_start_dt := 0,
        sleep_wait_start := 0, last_id := 0, last_announcement := 0,
        last_rcvd_dt := 50, pending_messages := [] }
    recorder := none
    wait_before_active := false }

/-- A sleeping state mid sleep-wait, used for concrete evaluations. -/
def st_wake_example : CState :=
  { status :=
      { busy := true, sleep := true, sleep_start_dt := 600,
        sleep_wait_start := 601, last_id := 0, last_announcement := 0,
        last_rcvd_dt := 601, pending_messages := [] }
    recorder := some { start_time := 601, file_name := "recordings/601.wav" }
    wait_before_active := true }

/-- C1: the transmit sequence (whose trace is marked by the queue-clearing
event) happens in a tick only when that tick's busy sample is false and
the queue left by the timed-event check is non-empty; over any tick
sequence, no tick whose trace drains had a busy sample. -/
theorem half_duplex :
    (∀ (s : ControllerSettings) (st : CState) (inp : Input),
      Event.clearQueue ∈ (tick s st inp).2 →
      inp.busy = false ∧
        (check_for_timed_events s inp.now st.status).pending_messages ≠ []) ∧
    (∀ (s : ControllerSettings) (st : CState) (inps : List Input)
      (p : Input × List Event), p ∈ run_controller s st inps →
      Event.clearQueue ∈ p.2 → p.1.busy = false) := by
  refine ⟨tick_clear_implies_free, ?_⟩
  intro s st inps
  induction inps generalizing st with
  | nil =>
    intro p hp _
    simp [run_controller] at hp
  | cons inp rest ih =>
    intro p hp hc
    rw [run_controller] at hp
    rcases List.mem_cons.mp hp with h1 | h1
    · subst h1
      exact (tick_clear_implies_free s st inp hc).1
    · exact ih (tick s st inp).1 p h1 hc

/-- Witness for `half_duplex` at a concrete free tick of the freshly
constructed controller. -/
theorem half_duplex_witness :
    (Input.mk 5 false false false).busy = false ∧
    (check_for_timed_events s_example 5
      (init_controller 0).status).pending_messages ≠ [] :=
  half_duplex.1 s_example (init_controller 0) (Input.mk 5 false false false)
    (by decide)

theorem busy_sleep_wait_pending (s : ControllerSettings) (now : Int)
    (st2 : ControllerStatus) (w : Bool) :
    (busy_sleep_wait s now st2 w).1.pending_messages =
      st2.pending_messages := by
  unfold busy_sleep_wait
  dsimp only
  split <;> split <;> rfl

theorem when_busy_pending (now : Int) (st : CState) :
    (when_repeater_is_busy now st).1.status.pending_messages =
      st.status.pending_messages := rfl

theorem tick_busy_pending (s : ControllerSettings) (st : CState)
    (inp : Input) :
    ∃ t, (tick_busy s st inp).1.status.pending_messages =
      st.status.pending_messages ++ t := by
  unfold tick_busy
  dsimp only
  rw [when_busy_pending]
  dsimp only
  rw [busy_sleep_wait_pending]
  obtain ⟨t, ht⟩ := check_pending s inp.now st.status
  refine ⟨t, ?_⟩
  split
  · dsimp only
    exact ht
  · exact ht

theorem run_busy_pending_ne (s : ControllerSettings) (st : CState)
    (inps : List Input) (hb : ∀ i ∈ inps, i.busy = true)
    (hne : st.status.pending_messages ≠ []) :
    (run_state s st inps).status.pending_messages ≠ [] := by
  induction inps generalizing st with
  | nil => exact hne
  | cons i rest ih =>
    rw [run_state]
    have hib : i.busy = true := hb i (List.mem_cons_self i rest)
    have hstep : tick s st i = tick_busy s st i := by
      unfold tick
      rw [if_neg (not_not_intro hib)]
    rw [hstep]
    refine ih _ (fun j hj => hb j (List.mem_cons_of_mem i hj)) ?_
    obtain ⟨t, ht⟩ := tick_busy_pending s st i
    rw [ht]
    intro hc
    exact hne (List.append_eq_nil.mp hc).1

theorem tick_free_drains (s : ControllerSettings) (st : CState)
    (inp : Input) (hne : st.status.pending_messages ≠ [])
    (hfree : inp.busy = false) :
    Event.clearQueue ∈ (tick s st inp).2 := by
  unfold tick
  rw [if_pos (by simp [hfree])]
  unfold tick_free
  dsimp only
  apply when_free_clear_of_nonempty
  dsimp only
  obtain ⟨t, ht⟩ := check_pending s inp.now st.status
  split
  · dsimp only
    rw [ht]
    intro hc
    exact hne (List.append_eq_nil.mp hc).1
  · rw [ht]
    intro hc
    exact hne (List.append_eq_nil.mp hc).1

/-- C10: at construction the pending queue already holds the repeater-info
clip followed by the ID clip; busy ticks only ever append to the queue;
hence after any all-busy prefix of ticks from the construction state, the
first tick whose channel sample is free drains (its trace clears the
queue). -/
theorem initial_queue_seeded :
    (∀ now : Int, (init_controller now).status.pending_messages =
      ["sounds/repeater_info.wav", "sounds/cw_id.wav"]) ∧
    (∀ (s : ControllerSettings) (st : CState) (inp : Input),
      inp.busy = true →
      ∃ t, (tick s st inp).1.status.pending_messages =
        st.status.pending_messages ++ t) ∧
    (∀ (s : ControllerSettings) (now : Int) (busyTicks : List Input)
      (inp : Input), (∀ i ∈ busyTicks, i.busy = true) → inp.busy = false →
      Event.clearQueue ∈
        (tick s (run_state s (init_controller now) busyTicks) inp).2) := by
  refine ⟨fun now => rfl, ?_, ?_⟩
  · intro s st inp hb
    unfold tick
    rw [if_neg (not_not_intro hb)]
    exact tick_busy_pending s st inp
  · intro s now busyTicks inp hb hfree
    refine tick_free_drains s _ inp ?_ hfree
    refine run_busy_pending_ne s (init_controller now) busyTicks hb ?_
    simp [init_controller]

/-- Witness for `initial_queue_seeded`: one busy tick after construction,
then a free tick, whose trace drains the seeded queue. -/
theorem initial_queue_seeded_witness :
    Event.clearQueue ∈
      (tick s_example
        (run_state s_example (init_controller 0)
          [Input.mk 1 true false false])
        (Input.mk 5 false false false)).2 :=
  initial_queue_seeded.2.2 s_example 0 [Input.mk 1 true false false]
    (Input.mk 5 false false false) (by decide) rfl

/-- C4: sleep entry fires in `sleep_timer` once the idle threshold is
reached while awake; a free tick never clears the sleep flag and always
clears the wake wait; a busy tick ends sleep only when a wake wait was
already running and has lasted at least `wake_after_sec` seconds; and on
the default settings the concrete scenario of the specification holds
(10 idle minutes put the controller to sleep, 2 continuously busy seconds
wake it, 1 busy second followed by a free sample does not). -/
theorem sleep_hysteresis :
    (∀ (s : ControllerSettings) (now : Int) (st : ControllerStatus),
      st.sleep = false → now - st.last_rcvd_dt ≥ s.sleep_after_mins * 60 →
      (sleep_timer s now st).sleep = true) ∧
    (∀ (s : ControllerSettings) (st : CState) (inp : Input),
      inp.busy = false → st.status.sleep = true →
      (tick s st inp).1.status.sleep = true) ∧
    (∀ (s : ControllerSettings) (st : CState) (inp : Input),
      inp.busy = true → 0 < s.wake_after_sec → st.status.sleep = true →
      (tick s st inp).1.status.sleep = false →
      st.wait_before_active = true ∧
        inp.now - st.status.sleep_wait_start ≥ s.wake_after_sec) ∧
    (∀ (s : ControllerSettings) (st : CState) (inp : Input),
      inp.busy = false → (tick s st inp).1.wait_before_active = false) ∧
    ((run_state s_example (init_controller 0)
        [Input.mk 600 false false false]).status.sleep = true ∧
      (run_state s_example (init_controller 0)
        [Input.mk 600 false false false, Input.mk 601 true false false,
          Input.mk 602 true false false,
          Input.mk 603 true false false]).status.sleep = false ∧
      (run_state s_example (init_controller 0)
        [Input.mk 600 false false false, Input.mk 601 true false false,
          Input.mk 602 true false false,
          Input.mk 603 false false false]).status.sleep = true) := by
  refine ⟨?_, ?_, ?_, ?_, by decide, by decide, by decide⟩
  · intro s now st h1 h2
    unfold sleep_timer
    rw [if_pos ⟨by simp [h1], h2⟩]
  · intro s st inp hb hs
    unfold tick
    rw [if_pos (by simp [hb])]
    exact tick_free_sleep_preserved s st inp hs
  · intro s st inp hb hw hs h4
    unfold tick at h4
    rw [if_neg (not_not_intro hb)] at h4
    unfold tick_busy at h4
    dsimp only at h4
    rw [when_busy_sleep] at h4
    dsimp only at h4
    by_cases hcb : (check_for_timed_events s inp.now st.status).busy
    · rw [if_neg (not_not_intro hcb)] at h4
      have hres := busy_sleep_wait_wake s inp.now _ _ hw
        (check_sleep_of _ _ _ hs) h4
      rw [check_sws] at hres
      exact hres
    · rw [if_pos hcb] at h4
      have hres := busy_sleep_wait_wake s inp.now _ _ hw
        (show ({ check_for_timed_events s inp.now st.status with
            busy := true } : ControllerStatus).sleep = true from
          check_sleep_of _ _ _ hs) h4
      refine ⟨hres.1, ?_⟩
      have h2 := hres.2
      dsimp only at h2
      rw [check_sws] at h2
      exact h2
  · intro s st inp hb
    unfold tick
    rw [if_pos (by simp [hb])]
    exact tick_free_wait_false s st inp

/-- Witness for `sleep_hysteresis`: sleep entry at 600 idle seconds from
the initial state, and a concrete wake tick obeying the grace-period
characterisation. -/
theorem sleep_hysteresis_witness :
    (sleep_timer s_example 600 (init_controller 0).status).sleep = true ∧
    (st_wake_example.wait_before_active = true ∧
      (Input.mk 603 true false false).now -
          st_wake_example.status.sleep_wait_start ≥
        s_example.wake_after_sec) :=
  ⟨sleep_hysteresis.1 s_example 600 (init_controller 0).status rfl
      (by decide),
    sleep_hysteresis.2.2.1 s_example st_wake_example
      (Input.mk 603 true false false) rfl (by decide) rfl (by decide)⟩

/-- C2 (failing input): with every sleep-suppression flag false and the
repeater asleep, the repeater-info timer still appends the info clip (and
the ID clip) and still advances `last_announcement` — the source never
consults the sleep state or `rpt_info_when_asleep` in
`repeaterinfo_timer`. -/
theorem repeaterinfo_fires_while_sleeping :
    st_sleeping_due.sleep = true ∧
    s_example.rpt_info_when_asleep = false ∧
    (repeaterinfo_timer s_example 3601 st_sleeping_due).pending_messages =
      ["sounds/repeater_info.wav", "sounds/cw_id.wav"] ∧
    (repeaterinfo_timer s_example 3601 st_sleeping_due).last_announcement =
      3601 := by decide

/-- C3 (counterexample to the claim as stated): at the freshly constructed
controller, with keying failing, running the free-branch drain does not
leave the queue unchanged — it clears it. -/
theorem keyfail_clears_queue_cex :
    (init_controller 0).status.pending_messages ≠ [] ∧
    (when_repeater_is_free s_example 5 true false
      (init_controller 0)).1.status.pending_messages = [] := by decide

/-- C3 (amended): when keying fails, `serial_enable_tx` swallows the
exception, so the drain proceeds: the clips are still played, the queue is
still cleared. -/
theorem keyfail_drain_proceeds (s : ControllerSettings) (now : Int)
    (uf : Bool) (st : CState)
    (h : st.status.pending_messages ≠ []) :
    (when_repeater_is_free s now true uf st).1.status.pending_messages =
      [] ∧
    (when_repeater_is_free s now true uf st).2 =
      (Controller.stop_recording s now st.recorder).2 ++
        [Event.keyError] ++
        (st.status.pending_messages.map Event.play ++ [Event.clearQueue]) ++
        serial_disable_tx uf := by
  unfold when_repeater_is_free
  rw [if_neg (by simpa [List.isEmpty_iff] using h)]
  exact ⟨rfl, rfl⟩

/-- Witness for `keyfail_drain_proceeds` at the freshly constructed
controller. -/
theorem keyfail_drain_proceeds_witness :
    (when_repeater_is_free s_example 5 true false
      (init_controller 0)).1.status.pending_messages = [] ∧
    (when_repeater_is_free s_example 5 true false (init_controller 0)).2 =
      (Controller.stop_recording s_example 5
        (init_controller 0).recorder).2 ++
        [Event.keyError] ++
        ((init_controller 0).status.pending_messages.map Event.play ++
          [Event.clearQueue]) ++
        serial_disable_tx false :=
  keyfail_drain_proceeds s_example 5 false (init_controller 0) (by decide)

/-- C7 (counterexample to the claim as stated): the trace of a drain from
the freshly constructed controller is not the order the specification
gives (play clips, wait post delay, unkey, clear). -/
theorem drain_order_cex :
    (when_repeater_is_free s_example 5 false false (init_controller 0)).2 ≠
      (Controller.stop_recording s_example 5
        (init_controller 0).recorder).2 ++
        drain_events_spec (init_controller 0).status.pending_messages := by
  decide

/-- C7 (amended): a failure-free drain keys, waits the pre-TX delay, plays
every queued clip in order, clears the queue, unkeys, and only then waits
the post-TX delay; the queue ends empty. -/
theorem drain_order (s : ControllerSettings) (now : Int) (st : CState)
    (h : st.status.pending_messages ≠ []) :
    (when_repeater_is_free s now false false st).2 =
      (Controller.stop_recording s now st.recorder).2 ++
        [Event.enableTX, Event.waitPreTX] ++
        (st.status.pending_messages.map Event.play ++ [Event.clearQueue]) ++
        [Event.disableTX, Event.waitPostTX] ∧
    (when_repeater_is_free s now false false st).1.status.pending_messages =
      [] := by
  unfold when_repeater_is_free
  rw [if_neg (by simpa [List.isEmpty_iff] using h)]
  exact ⟨rfl, rfl⟩

/-- Witness for `drain_order` at the freshly constructed controller. -/
theorem drain_order_witness :
    (when_repeater_is_free s_example 5 false false (init_controller 0)).2 =
      (Controller.stop_recording s_example 5
        (init_controller 0).recorder).2 ++
        [Event.enableTX, Event.waitPreTX] ++
        ((init_controller 0).status.pending_messages.map Event.play ++
          [Event.clearQueue]) ++
        [Event.disableTX, Event.waitPostTX] ∧
    (when_repeater_is_free s_example 5 false false
      (init_controller 0)).1.status.pending_messages = [] :=
  drain_order s_example 5 (init_controller 0) (by decide)

/-- C5: a due CW-ID tick while asleep with `id_when_asleep = false` leaves
the whole status (queue and `last_id` watermark included) unchanged, and
the first later evaluation with the sleep flag cleared enqueues the ID
clip and advances `last_id`. -/
theorem cwid_suppression_defers (s : ControllerSettings)
    (st : ControllerStatus) (now now2 : Int)
    (hs : st.sleep = true) (hid : s.id_when_asleep = false)
    (hdue : now - st.last_id > s.id_mins * 60) (hle : now ≤ now2) :
    cwid_timer s now st = st ∧
    (cwid_timer s now2 { st with sleep := false }).pending_messages =
      st.pending_messages ++ ["sounds/cw_id.wav"] ∧
    (cwid_timer s now2 { st with sleep := false }).last_id = now2 := by
  have hdue2 :
      ¬ (now2 - ({ st with sleep := false } :
          ControllerStatus).last_id ≤ s.id_mins * 60) := by
    dsimp only
    omega
  refine ⟨?_, ?_, ?_⟩
  · unfold cwid_timer
    rw [if_neg (by omega), if_neg (by simp [hs, hid])]
  · unfold cwid_timer
    rw [if_neg hdue2, if_pos (by simp)]
  · unfold cwid_timer
    rw [if_neg hdue2, if_pos (by simp)]

/-- Witness for `cwid_suppression_defers` on the default settings. -/
theorem cwid_suppression_defers_witness :
    cwid_timer s_example 901 st_sleeping_due = st_sleeping_due ∧
    (cwid_timer s_example 902
        { st_sleeping_due with sleep := false }).pending_messages =
      st_sleeping_due.pending_messages ++ ["sounds/cw_id.wav"] ∧
    (cwid_timer s_example 902
        { st_sleeping_due with sleep := false }).last_id = 902 :=
  cwid_suppression_defers s_example st_sleeping_due 901 902 rfl rfl
    (by decide) (by decide)

/-- C6: whenever the repeater-info timer fires it appends the info clip
immediately followed by the ID clip, advances both watermarks to the tick
time, and the CW-ID timer run right after it (as `check_for_timed_events`
does) leaves the status untouched. -/
theorem info_implies_id (s : ControllerSettings) (st : ControllerStatus)
    (now : Int) (hdue : now - st.last_announcement > s.rpt_info_mins * 60)
    (hpos : 0 ≤ s.id_mins) :
    (repeaterinfo_timer s now st).pending_messages =
      st.pending_messages ++
        ["sounds/repeater_info.wav", "sounds/cw_id.wav"] ∧
    (repeaterinfo_timer s now st).last_announcement = now ∧
    (repeaterinfo_timer s now st).last_id = now ∧
    cwid_timer s now (repeaterinfo_timer s now st) =
      repeaterinfo_timer s now st := by
  have h1 : ¬ (now - st.last_announcement ≤ s.rpt_info_mins * 60) := by
    omega
  have hlast : (repeaterinfo_timer s now st).last_id = now := by
    unfold repeaterinfo_timer
    rw [if_neg h1]
  refine ⟨?_, ?_, hlast, ?_⟩
  · unfold repeaterinfo_timer
    rw [if_neg h1]
  · unfold repeaterinfo_timer
    rw [if_neg h1]
  · unfold cwid_timer
    rw [if_pos (by rw [hlast]; omega)]

/-- Witness for `info_implies_id` on the default settings. -/
theorem info_implies_id_witness :
    (repeaterinfo_timer s_example 3601 st_sleeping_due).pending_messages =
      st_sleeping_due.pending_messages ++
        ["sounds/repeater_info.wav", "sounds/cw_id.wav"] ∧
    (repeaterinfo_timer s_example 3601
      st_sleeping_due).last_announcement = 3601 ∧
    (repeaterinfo_timer s_example 3601 st_sleeping_due).last_id = 3601 ∧
    cwid_timer s_example 3601
        (repeaterinfo_timer s_example 3601 st_sleeping_due) =
      repeaterinfo_timer s_example 3601 st_sleeping_due :=
  info_implies_id s_example st_sleeping_due 3601 (by decide) (by decide)

/-- C8 (counterexample to the claim as stated): a busy tick taken while
the stored busy flag is already set (so no free-to-busy transition
happens) still moves `last_rcvd_dt` from 50 to the tick time 100. -/
theorem last_rcvd_update_cex :
    st_busy_example.status.busy = true ∧
    (Input.mk 100 true false false).busy = true ∧
    st_busy_example.status.last_rcvd_dt = 50 ∧
    (tick s_example st_busy_example
      (Input.mk 100 true false false)).1.status.last_rcvd_dt = 100 := by
  decide

/-- C8 (amended): `last_rcvd_dt` is set to the tick time on every busy
tick (transition or not), is unchanged on free ticks, and never decreases
as long as tick times do not run backwards past it. -/
theorem last_rcvd_update (s : ControllerSettings) (st : CState)
    (inp : Input) :
    (inp.busy = true →
      (tick s st inp).1.status.last_rcvd_dt = inp.now) ∧
    (inp.busy = false →
      (tick s st inp).1.status.last_rcvd_dt =
        st.status.last_rcvd_dt) ∧
    (st.status.last_rcvd_dt ≤ inp.now →
      st.status.last_rcvd_dt ≤ (tick s st inp).1.status.last_rcvd_dt) := by
  have h1 : inp.busy = true →
      (tick s st inp).1.status.last_rcvd_dt = inp.now := by
    intro hb
    unfold tick
    rw [if_neg (by simp [hb])]
    unfold tick_busy
    dsimp only
    exact when_busy_lr _ _
  have h2 : inp.busy = false →
      (tick s st inp).1.status.last_rcvd_dt = st.status.last_rcvd_dt := by
    intro hb
    unfold tick
    rw [if_pos (by simp [hb])]
    unfold tick_free
    dsimp only
    rw [when_free_lr]
    dsimp only
    split
    · exact check_lr _ _ _
    · exact check_lr _ _ _
  refine ⟨h1, h2, ?_⟩
  intro hle
  cases hb : inp.busy with
  | true => rw [h1 hb]; exact hle
  | false => rw [h2 hb]

/-- Witness for `last_rcvd_update` at a concrete already-busy tick. -/
theorem last_rcvd_update_witness :
    (tick s_example st_busy_example
      (Input.mk 100 true false false)).1.status.last_rcvd_dt = 100 :=
  (last_rcvd_update s_example st_busy_example
    (Input.mk 100 true false false)).1 rfl

/-- C9: stopping a live recording always clears the recording slot, and
deletes the artifact exactly when the duration is strictly below
`min_rec_secs` (so a recording exactly at the minimum is kept). -/
theorem stop_recording_discard_policy :
    ∀ (m now : Int) (r : Recording),
      (RecordingManager.stop_recording m now (some r)).1 = none ∧
      (RecordingManager.stop_recording m now none).1 = none ∧
      (Event.deleteFile r.file_name ∈
          (RecordingManager.stop_recording m now (some r)).2 ↔
        now - r.start_time < m) := by
  intro m now r
  refine ⟨?_, rfl, ?_⟩
  · simp only [RecordingManager.stop_recording]
    split <;> rfl
  · simp only [RecordingManager.stop_recording]
    split
    · next hlt => simp [hlt]
    · next hge => simp [hge]
